import Mathlib

/-!
Shallow embedding of the scoring and parsing core of the tweet-inspire-agent
repository (backend/twitter_agent): the virality scorer
(`utils/virality.py`), the profile-health scorer
(`analysis/profile_health.py` together with the engagement analytics it uses
from `utils/analytics.py`), and the generated-content parser
(`analysis/content_generator.py`, method `_parse_generated_content`).

Modelling conventions:
* Python `str` is modelled as `List Char`; matching is ASCII-style, as the
  spec states for the feature extraction (locale-independent ASCII matching).
* Python floats are modelled as exact rationals (`ℚ`); `round(x, n)` is
  modelled as decimal round-half-to-even at `n` digits.
* Python dicts keyed by fixed string keys are modelled either as
  insertion-ordered association lists (virality components) or as structures
  with one field per key (health scores/metrics, which always carry exactly
  the same keys).
* `None`-able values are `Option`; Python truthiness of numbers is modelled
  explicitly (`0` falsy) where the source relies on it.
-/

attribute [local semireducible] Rat.mul Rat.inv Rat.add Rat.sub

/-! ### Character classes and basic string operations -/

/-- ASCII word character, Python regex `\w`. -/
def isWordChar (c : Char) : Bool :=
  c.isAlpha || c.isDigit || c == '_'

/-- Python `str` whitespace (ASCII part), as used by `str.strip()` and `str.split()`. -/
def pyIsSpace (c : Char) : Bool :=
  c == ' ' || c == '\t' || c == '\n' || c == '\r' || c == '\x0b' || c == '\x0c'

/-- Python `str.strip()`. -/
def pyStrip (s : List Char) : List Char :=
  ((s.dropWhile pyIsSpace).reverse.dropWhile pyIsSpace).reverse

/-- Python `str.lower()` (ASCII). -/
def pyLower (s : List Char) : List Char :=
  s.map Char.toLower

/-- Maximal runs of characters satisfying `p` (used for regex token scans). -/
def runsAux (p : Char → Bool) (cur : List Char) : List Char → List (List Char)
  | [] => if cur.isEmpty then [] else [cur.reverse]
  | c :: cs =>
    if p c then runsAux p (c :: cur) cs
    else if cur.isEmpty then runsAux p [] cs else cur.reverse :: runsAux p [] cs

/-- Maximal runs of characters satisfying `p`. -/
def runs (p : Char → Bool) (s : List Char) : List (List Char) :=
  runsAux p [] s

/-- Python `re.findall(r"\b\w+\b", s)`: the maximal word-character runs. -/
def wordTokens (s : List Char) : List (List Char) :=
  runs isWordChar s

/-- Python `s.split(sep)` for a single-character separator (keeps empty pieces). -/
def splitOnCharAux (sep : Char) (cur : List Char) : List Char → List (List Char)
  | [] => [cur.reverse]
  | c :: cs =>
    if c == sep then cur.reverse :: splitOnCharAux sep [] cs
    else splitOnCharAux sep (c :: cur) cs

/-- Python `s.split(sep)` for a single-character separator. -/
def splitOnChar (sep : Char) (s : List Char) : List (List Char) :=
  splitOnCharAux sep [] s

/-- Python `s.split("\n\n")` (keeps empty pieces; non-overlapping,
left-to-right, exactly as `str.split` with a two-character separator). -/
def splitOnNNAux (cur : List Char) : List Char → List (List Char)
  | '\n' :: '\n' :: cs => cur.reverse :: splitOnNNAux [] cs
  | c :: cs => splitOnNNAux (c :: cur) cs
  | [] => [cur.reverse]

/-- Python `s.split("\n\n")`. -/
def splitOnNN (s : List Char) : List (List Char) :=
  splitOnNNAux [] s

/-- Python `s.replace(". ", ".\n")`: left-to-right non-overlapping
replacement of the two-character pattern. -/
def replaceDotSpace : List Char → List Char
  | '.' :: ' ' :: cs => '.' :: '\n' :: replaceDotSpace cs
  | c :: cs => c :: replaceDotSpace cs
  | [] => []

/-- Substring containment, Python `pat in s`. -/
def containsSub (pat : List Char) : List Char → Bool
  | [] => pat.isEmpty
  | c :: cs => pat.isPrefixOf (c :: cs) || containsSub pat cs

/-- Python `str.splitlines()` (ASCII line boundaries). -/
def splitlinesAux (cur : List Char) : List Char → List (List Char)
  | [] => if cur.isEmpty then [] else [cur.reverse]
  | '\r' :: '\n' :: cs => cur.reverse :: splitlinesAux [] cs
  | c :: cs =>
    if c == '\n' || c == '\r' || c == '\x0b' || c == '\x0c' ||
       c == '\x1c' || c == '\x1d' || c == '\x1e' then
      cur.reverse :: splitlinesAux [] cs
    else splitlinesAux (c :: cur) cs

/-- Python `str.splitlines()`. -/
def pySplitlines (s : List Char) : List (List Char) :=
  splitlinesAux [] s

/-- Python `" ".join(parts)`. -/
def joinSpace : List (List Char) → List Char
  | [] => []
  | [x] => x
  | x :: y :: xs => x ++ ' ' :: joinSpace (y :: xs)

/-- Python `list(dict.fromkeys(l))`: de-duplicate keeping first occurrences
(`seen` collects the keys already emitted). -/
def pyDedupAux {α : Type} [DecidableEq α] (seen : List α) : List α → List α
  | [] => []
  | x :: xs => if x ∈ seen then pyDedupAux seen xs
    else x :: pyDedupAux (x :: seen) xs

/-- Python `list(dict.fromkeys(l))`. -/
def pyDedup {α : Type} [DecidableEq α] (l : List α) : List α :=
  pyDedupAux [] l

/-- Count of matches of Python regex `#\w+`-style patterns (`re.findall`):
`mark` followed by at least one word character, non-overlapping left-to-right.
Since `mark` is not a word character, no match can begin inside the consumed
word run, so the scan can advance one character at a time. -/
def tagCount (mark : Char) : List Char → Nat
  | [] => 0
  | c :: cs =>
    (if c == mark && (match cs.head? with
        | some d => isWordChar d
        | none => false) then 1 else 0) + tagCount mark cs

/-- Word-boundary-delimited substring search: Python `re.search(r"\bpat\b", s)`
for a pattern that starts and ends with word characters (spaces allowed inside). -/
def wbAux (pat : List Char) (prev : Option Char) : List Char → Bool
  | [] => pat.isEmpty
  | c :: cs =>
    (pat.isPrefixOf (c :: cs) &&
      (match prev with | none => true | some p => !isWordChar p) &&
      (match ((c :: cs).drop pat.length).head? with
       | none => true
       | some nxt => !isWordChar nxt)) ||
    wbAux pat (some c) cs

/-- Word-bounded occurrence of `pat` in `s` (Python `re.search(r"\b..\b", s)`). -/
def wordBounded (pat s : List Char) : Bool :=
  wbAux pat none s

/-- URL presence, Python `re.search(r"https?://|www\.", s)`. -/
def hasLink (s : List Char) : Bool :=
  containsSub "http://".data s || containsSub "https://".data s ||
    containsSub "www.".data s

/-! ### Decimal rounding (Python `round`, half-to-even) -/

/-- Round a rational to the nearest integer, ties to even (Python `round`). -/
def rhe (q : ℚ) : ℤ :=
  let f := ⌊q⌋
  let r := q - f
  if r < 1/2 then f
  else if 1/2 < r then f + 1
  else if f % 2 = 0 then f else f + 1

/-- Python `round(x, 1)`. -/
def round1 (q : ℚ) : ℚ := (rhe (q * 10) : ℚ) / 10

/-- Python `round(x, 2)`. -/
def round2 (q : ℚ) : ℚ := (rhe (q * 100) : ℚ) / 100

/-- Python `round(x, 3)`. -/
def round3 (q : ℚ) : ℚ := (rhe (q * 1000) : ℚ) / 1000

/-- Python `round(x, 4)`. -/
def round4 (q : ℚ) : ℚ := (rhe (q * 10000) : ℚ) / 10000

/-- Python `round(x, 0)`. -/
def round0 (q : ℚ) : ℚ := (rhe q : ℚ)

/-! ### Data model (`models/schemas.py`) -/

/-- `ContentType` enum from `models/schemas.py`. -/
inductive ContentType where
  | tweet
  | thread
  | reply
  | quote
deriving DecidableEq, Repr

/-- `Tweet` model from `models/schemas.py`; `created_at` is a timestamp in
seconds (naive datetime modelled as seconds since an arbitrary epoch). -/
structure Tweet where
  tweetId : String
  text : List Char
  createdAt : Option ℤ := none
  authorUsername : String := ""
  likeCount : Option ℤ := none
  retweetCount : Option ℤ := none
  replyCount : Option ℤ := none
  quoteCount : Option ℤ := none
  isReply : Bool := false
  isQuote : Bool := false
  referencedTweetId : Option String := none
deriving DecidableEq, Repr

/-- `UserInfo` model from `models/schemas.py` (field `bio` named `bioText`). -/
structure UserInfo where
  username : String
  userId : Option String := none
  displayName : Option String := none
  bioText : Option (List Char) := none
  followersCount : Option ℤ := none
  followingCount : Option ℤ := none
  tweetCount : Option ℤ := none
deriving DecidableEq, Repr

/-- `VoiceProfile` model from `models/schemas.py` (fields used by the core). -/
structure VoiceProfile where
  username : String
  writingStyle : List Char := []
  tone : List Char := []
  commonTopics : List (List Char) := []
  hashtagUsage : List (List Char × ℤ) := []
  averageTweetLength : Option ℤ := none
deriving DecidableEq, Repr

/-! ### ViralityScorer (`utils/virality.py`) -/

/-- `ENGAGEMENT_BAIT_PATTERNS` (each regex is a word-bounded literal). -/
def ENGAGEMENT_BAIT_PATTERNS : List (List Char) :=
  ["rt if", "like if", "retweet if", "share if", "follow me",
   "free giveaway", "airdrop", "dm me", "subscribe"].map String.data

/-- `SHARE_KEYWORDS`. -/
def SHARE_KEYWORDS : List (List Char) :=
  ["framework", "checklist", "playbook", "lessons", "mistake", "mistakes",
   "rules", "steps", "ways", "principles", "guide", "template", "how to",
   "counterintuitive", "unpopular", "truth"].map String.data

/-- `REPLY_KEYWORDS`. -/
def REPLY_KEYWORDS : List (List Char) :=
  ["thoughts", "agree", "disagree", "anyone else", "curious", "hot take",
   "what do you think"].map String.data

/-- `CLICK_KEYWORDS`. -/
def CLICK_KEYWORDS : List (List Char) :=
  ["link", "full", "read", "guide", "template", "resource", "download",
   "demo"].map String.data

/-- `HOOK_KEYWORDS` (the source literal "here's" is written with `\x27`). -/
def HOOK_KEYWORDS : List (List Char) :=
  ["here\x27s", "nobody", "stop", "hot take", "wild", "truth", "mistake",
   "counterintuitive", "unpopular", "the real", "what nobody", "this is why",
   "changed how i"].map String.data

/-- `ViralityResult` dataclass. `components` is an insertion-ordered dict. -/
structure ViralityResult where
  score : ℚ
  components : List (String × ℚ)
  notes : List String
deriving DecidableEq, Repr

/-- Insertion-ordered dict read, Python `d.get(k, dflt)`. -/
def dGet (d : List (String × ℚ)) (k : String) (dflt : ℚ) : ℚ :=
  match d.find? (fun kv => kv.1 == k) with
  | some kv => kv.2
  | none => dflt

/-- Insertion-ordered dict write, Python `d[k] = v`. -/
def dSet : List (String × ℚ) → String → ℚ → List (String × ℚ)
  | [], k, v => [(k, v)]
  | (k', v') :: rest, k, v =>
    if k' == k then (k, v) :: rest else (k', v') :: dSet rest k v

/-- `ViralityScorer._has_keywords`. -/
def hasKeywords (text : List Char) (keywords : List (List Char)) : Bool :=
  keywords.any (fun k => containsSub k (pyLower text))

/-- `ViralityScorer._hook_score`. -/
def hookScore (text : List Char) : ℚ :=
  let words := wordTokens (pyLower text)
  let firstWords := joinSpace (words.take 12)
  if firstWords.isEmpty then 0
  else if HOOK_KEYWORDS.any (fun k => containsSub k firstWords) then 1
  else 3/10

/-- `ViralityScorer._length_score`. -/
def lengthScore (length : ℕ) (contentType : ContentType) : ℚ :=
  let band : ℕ × ℕ :=
    match contentType with
    | .reply => (60, 200)
    | .quote => (80, 200)
    | .thread => (120, 260)
    | _ => (100, 220)
  if length ≤ 30 ∨ 280 ≤ length then 0
  else if length < band.1 then
    ((length : ℚ) - 30) / max ((band.1 : ℚ) - 30) 1
  else if band.2 < length then
    max 0 (((280 : ℚ) - (length : ℚ)) / max ((280 : ℚ) - (band.2 : ℚ)) 1)
  else 1

/-- `ViralityScorer._clarity_score`. -/
def clarityScore (avgSentenceLen : ℚ) (length : ℕ) (exclamations : ℕ) : ℚ :=
  if avgSentenceLen ≤ 0 then 1/2
  else
    let base := 1 - min 1 (|avgSentenceLen - 14| / 14)
    let base := if 250 < length then base * (8/10) else base
    let base := if 4 ≤ exclamations then base * (8/10) else base
    max 0 (min 1 base)

/-- `ViralityScorer._negative_risk`. -/
def negativeRisk (text : List Char) (hashtags mentions exclamations : ℕ)
    (uppercaseFrac : ℚ) : ℚ :=
  let lowered := pyLower text
  let risk : ℚ := 0
  let risk := if ENGAGEMENT_BAIT_PATTERNS.any (fun p => wordBounded p lowered)
    then risk + 1/2 else risk
  let risk := if 2 < hashtags then risk + 1/5 else risk
  let risk := if 2 < mentions then risk + 1/5 else risk
  let risk := if 3 < exclamations then risk + 1/10 else risk
  let risk := if 7/20 < uppercaseFrac then risk + 1/5 else risk
  let risk := if ["spam", "giveaway", "free money", "pump"].any
      (fun p => wordBounded p.data lowered) then risk + 1/5 else risk
  min 1 risk

/-- `ViralityScorer._aggregate_score`. -/
def aggregateScore (components : List (String × ℚ)) : ℚ :=
  let weights : List (String × ℚ) :=
    [("reply_potential", 1/5), ("share_potential", 1/4),
     ("click_potential", 1/10), ("dwell_potential", 1/4), ("clarity", 1/5)]
  let positive := (weights.map (fun kv => kv.2 * dGet components kv.1 0)).sum
  let penalty := dGet components "negative_risk" 0 * 20
  max 0 (min 100 (positive * 100 - penalty))

/-- `ViralityScorer._notes_from_components`. -/
def notesFromComponents (replyPotential sharePotential clickPotential
    dwellPotential clarity negRisk : ℚ) (length : ℕ)
    (contentType : ContentType) : List String :=
  let notes : List String := []
  let notes := if 7/10 ≤ sharePotential then notes ++ ["Shareable insight"] else notes
  let notes := if 7/10 ≤ replyPotential then notes ++ ["Strong reply prompt"] else notes
  let notes := if 7/10 ≤ clickPotential then notes ++ ["Clear click value"] else notes
  let notes := if 7/10 ≤ dwellPotential then notes ++ ["Good dwell potential"] else notes
  let notes := if clarity < 1/2 then notes ++ ["Clarity could be tighter"] else notes
  let notes := if 1/2 ≤ negRisk then notes ++ ["Risk: looks like engagement bait"] else notes
  if contentType ≠ .thread then
    if length < 70 then notes ++ ["May be too short"]
    else if 250 < length then notes ++ ["May be too long"]
    else notes
  else notes

/-- `ViralityScorer._score_text`. -/
def scoreText (text : List Char) (contentType : ContentType) : ViralityResult :=
  let cleaned := pyStrip text
  if cleaned.isEmpty then
    { score := 0, components := [], notes := ["Empty content"] }
  else
    let length := cleaned.length
    let letters := (cleaned.filter Char.isAlpha).length
    let upper := (cleaned.filter Char.isUpper).length
    let uppercaseFrac : ℚ := if letters ≠ 0 then (upper : ℚ) / letters else 0
    let questionMarks := cleaned.count '?'
    let exclamations := cleaned.count '!'
    let hashtags := tagCount '#' cleaned
    let mentions := tagCount '@' cleaned
    let link := hasLink cleaned
    let sentences := ((runs (fun c => !(c == '.' || c == '!' || c == '?')) cleaned).map
        pyStrip).filter (fun s => !s.isEmpty)
    let sentenceLengths := sentences.map (fun s => (wordTokens s).length)
    let avgSentenceLen : ℚ :=
      if sentenceLengths.isEmpty then 0
      else ((sentenceLengths.map (fun n => (n : ℚ))).sum) / (sentenceLengths.length : ℚ)
    let lineBreaks := cleaned.count '\n'
    let hasList := (pySplitlines cleaned).any (fun line =>
      ["-", "*", "1.", "1)", "•"].any (fun p => p.data.isPrefixOf (pyStrip line)))
    let numberCount := ((wordTokens cleaned).filter (fun t => t.all Char.isDigit)).length
    let lScore := lengthScore length contentType
    let structureScore := min 1
      ((if 1 ≤ lineBreaks then (2/5 : ℚ) else 0) + (if hasList then 2/5 else 0) +
        (if 1 ≤ numberCount then 1/5 else 0))
    let hkScore := hookScore cleaned
    let replyPotential := min 1
      ((if 0 < questionMarks then (3/5 : ℚ) else 0) +
        (if hasKeywords cleaned REPLY_KEYWORDS then 2/5 else 0))
    let sharePotential := min 1
      ((if hasList || 1 ≤ numberCount then (3/10 : ℚ) else 0) +
        (if hasKeywords cleaned SHARE_KEYWORDS then 2/5 else 0) +
        (if 2/5 < hkScore then 3/10 else 0))
    let clickPotential := min 1
      ((if hasKeywords cleaned CLICK_KEYWORDS then (3/5 : ℚ) else 0) +
        (if link then 2/5 else 0))
    let dwellPotential := min 1 (1/2 * lScore + 3/10 * structureScore + 1/5 * hkScore)
    let clarity := clarityScore avgSentenceLen length exclamations
    let negRisk := negativeRisk cleaned hashtags mentions exclamations uppercaseFrac
    let components : List (String × ℚ) :=
      [("reply_potential", replyPotential), ("share_potential", sharePotential),
       ("click_potential", clickPotential), ("dwell_potential", dwellPotential),
       ("clarity", clarity), ("negative_risk", negRisk)]
    let notes := notesFromComponents replyPotential sharePotential clickPotential
      dwellPotential clarity negRisk length contentType
    { score := aggregateScore components, components := components, notes := notes }

/-- Body of `ViralityScorer.score` once the input is normalised to a list of texts. -/
def scoreTexts (texts : List (List Char)) (contentType : ContentType) :
    ViralityResult :=
  let perText := texts.map (fun t => scoreText t contentType)
  if perText.isEmpty then
    { score := 0, components := [], notes := ["No content to score"] }
  else
    let merged := perText.foldl (fun d r =>
      r.components.foldl (fun d kv => dSet d kv.1 (dGet d kv.1 0 + kv.2)) d) []
    let divided := merged.map (fun kv => (kv.1, kv.2 / (perText.length : ℚ)))
    let notes := (pyDedup (perText.foldl (fun acc r => acc ++ r.notes) [])).take 6
    let score := aggregateScore divided
    let adjusted : ℚ × List String :=
      if contentType = .thread then
        match texts with
        | [] => (score, notes)
        | t :: _ =>
          let hk := hookScore t
          (min 100 (score + hk * 6),
           if 3/5 < hk ∧ "Strong hook" ∉ notes then "Strong hook" :: notes
           else notes)
      else (score, notes)
    { score := round1 adjusted.1, components := divided, notes := adjusted.2 }

/-- The `str | list[str]` input union of `ViralityScorer.score`. -/
inductive ScoreInput where
  | str (s : List Char)
  | list (l : List (List Char))

/-- `ViralityScorer.score`. -/
def scoreContent (content : ScoreInput) (contentType : ContentType) :
    ViralityResult :=
  scoreTexts (match content with | .str s => [s] | .list l => l) contentType

/-! ### Generated-content parsing
(`analysis/content_generator.py`, `ContentGenerator._parse_generated_content`) -/

/-- Marker-prefix end position: index one past the first space, colon or hyphen
occurring after position 0, or the line length when there is none. -/
def markerEnd (line : List Char) : ℕ :=
  match line with
  | [] => 0
  | _ :: rest =>
    match rest.findIdx? (fun ch => ch == ' ' || ch == ':' || ch == '-') with
    | some i => i + 2
    | none => line.length

/-- The THREAD-branch line loop of `_parse_generated_content`: accumulates
stripped lines into a current-segment buffer, flushing on blank lines and on
numbered markers (a line starting with a digit having `/`, `)` or `.` within
its first 6 characters). -/
def threadLoop (tweets : List (List Char)) (cur : List (List Char)) :
    List (List Char) → List (List Char)
  | [] => if cur.isEmpty then tweets else tweets ++ [pyStrip (joinSpace cur)]
  | line :: rest =>
    let l := pyStrip line
    if l.isEmpty then
      if cur.isEmpty then threadLoop tweets [] rest
      else threadLoop (tweets ++ [pyStrip (joinSpace cur)]) [] rest
    else if (l.headD ' ').isDigit then
      if (l.take 6).any (fun ch => ch == '/' || ch == ')' || ch == '.') then
        let tweets' := if cur.isEmpty then tweets
          else tweets ++ [pyStrip (joinSpace cur)]
        let t := pyStrip (l.drop (markerEnd l))
        threadLoop tweets' (if t.isEmpty then [] else [t]) rest
      else threadLoop tweets (cur ++ [l]) rest
    else threadLoop tweets (cur ++ [l]) rest

/-- First pass of the THREAD branch: run the line loop over `split("\n")` and
drop empty segments. -/
def threadFirstPass (text : List Char) : List (List Char) :=
  (threadLoop [] [] (splitOnChar '\n' text)).filter (fun t => !t.isEmpty)

/-- Fallback (a): blank-line paragraphs
(`[p.strip() for p in generated_text.split("\n\n") if p.strip()]`). -/
def threadParagraphs (text : List Char) : List (List Char) :=
  ((splitOnNN text).map pyStrip).filter (fun p => !p.isEmpty)

/-- Greedy sentence-chunking loop of fallback (b): accumulate sentences into
chunks of at most ~260 characters. -/
def chunkLoop (chunks : List (List Char)) (curChunk : List (List Char))
    (curLen : ℕ) : List (List Char) → List (List Char)
  | [] => if curChunk.isEmpty then chunks else chunks ++ [joinSpace curChunk]
  | sentence :: rest =>
    let s := pyStrip sentence
    if s.isEmpty then chunkLoop chunks curChunk curLen rest
    else
      let sLen := s.length + 1
      if 260 < curLen + sLen ∧ ¬curChunk.isEmpty then
        chunkLoop (chunks ++ [joinSpace curChunk]) [s] s.length rest
      else chunkLoop chunks (curChunk ++ [s]) (curLen + sLen) rest

/-- Fallback (b): sentence-based chunks of the trimmed text
(`text.replace(". ", ".\n").split("\n")` fed to the greedy chunk loop). -/
def threadChunks (text : List Char) : List (List Char) :=
  chunkLoop [] [] 0 (splitOnChar '\n' (replaceDotSpace text))

/-- THREAD branch of `_parse_generated_content` before the final fallback:
first pass, then paragraph fallback, then (for texts over 400 characters)
sentence-chunk fallback. -/
def threadSelect (generatedText : List Char) : List (List Char) :=
  let tweets := threadFirstPass generatedText
  if tweets.length < 2 then
    let paragraphs := threadParagraphs generatedText
    if 1 < paragraphs.length then paragraphs
    else
      let text := pyStrip generatedText
      if 400 < text.length ∧ ¬(threadChunks text).isEmpty then
        (threadChunks text).take 10
      else tweets
  else tweets

/-- THREAD branch of `_parse_generated_content`. -/
def parseThread (generatedText : List Char) : List (List Char) :=
  let tweets := threadSelect generatedText
  if tweets.isEmpty then [pyStrip generatedText] else tweets

/-- The single-tweet loop of the non-THREAD branch: first stripped line that is
non-empty and does not start with a digit. -/
def firstNonDigitLine : List (List Char) → Option (List Char)
  | [] => none
  | line :: rest =>
    let l := pyStrip line
    if ¬l.isEmpty ∧ ¬(l.headD ' ').isDigit then some l
    else firstNonDigitLine rest

/-- Non-THREAD branch of `_parse_generated_content`. -/
def parseSingle (generatedText : List Char) : List Char :=
  let text := pyStrip generatedText
  let lines := splitOnChar '\n' text
  if 1 < lines.length then
    match firstNonDigitLine lines with
    | some l => l
    | none => text
  else text

/-- `ContentGenerator._parse_generated_content`: dispatches on content type. -/
def parseGeneratedContent (generatedText : List Char)
    (contentType : ContentType) : ScoreInput :=
  if contentType = .thread then .list (parseThread generatedText)
  else .str (parseSingle generatedText)

/-! ### Engagement analytics
(`utils/analytics.py`, `AnalyticsProcessor.analyze_engagement_patterns`) -/

/-- Stable insert for a descending sort by a rational key (later elements go
after earlier ones with an equal key, like Python `sorted(..., reverse=True)`). -/
def insDesc {α : Type} (key : α → ℚ) (x : α) : List α → List α
  | [] => [x]
  | y :: ys => if key x ≤ key y then y :: insDesc key x ys else x :: y :: ys

/-- Python `sorted(l, key=key, reverse=True)` (stable, descending). -/
def stableSortDesc {α : Type} (key : α → ℚ) (l : List α) : List α :=
  l.foldl (fun acc x => insDesc key x acc) []

/-- Insertion-ordered dict update with default (Python `defaultdict` /
`Counter` writes). -/
def updAssoc {κ β : Type} [BEq κ] (d : List (κ × β)) (k : κ) (f : β → β)
    (v0 : β) : List (κ × β) :=
  match d with
  | [] => [(k, f v0)]
  | (k', b) :: rest =>
    if k' == k then (k', f b) :: rest else (k', b) :: updAssoc rest k f v0

/-- Sum of an optional integer tweet metric with `or 0` defaulting. -/
def sumMetric (f : Tweet → Option ℤ) (tweets : List Tweet) : ℤ :=
  (tweets.map (fun t => (f t).getD 0)).sum

/-- Hour of a timestamp in seconds (`created_at.hour`). -/
def hourOf (t : ℤ) : ℤ :=
  (t.fdiv 3600) % 24

/-- The fields of the dict returned by `analyze_engagement_patterns` that is
non-empty exactly when the tweet list is (the empty dict is modelled as
`none`). `average_metrics` values are rounded to 2 decimals as in the source. -/
structure EngagementPatterns where
  averageLikes : ℚ
  averageRetweets : ℚ
  averageReplies : ℚ
  averageQuotes : ℚ
  topPerformingTweets : List (List Char × Option ℤ × Option ℤ)
  bestPostingHours : List ℤ
  averageTweetLength : ℚ
  topHashtags : List (List Char)
  engagementRepliesAvg : ℚ
  engagementOriginalAvg : ℚ
  totalTweetsAnalyzed : ℕ
deriving DecidableEq, Repr

/-- `AnalyticsProcessor.analyze_engagement_patterns`. -/
def analyzeEngagementPatterns (tweets : List Tweet) : Option EngagementPatterns :=
  if tweets.isEmpty then none
  else
    let n : ℚ := tweets.length
    let topTweets := (stableSortDesc
      (fun t => ((t.likeCount.getD 0 : ℚ) + (t.retweetCount.getD 0 : ℚ) * 2))
      tweets).take 10
    let hourly : List (ℤ × ℤ × ℤ × ℕ) := tweets.foldl (fun d t =>
      match t.createdAt with
      | none => d
      | some ts => updAssoc d (hourOf ts)
          (fun e => (e.1 + t.likeCount.getD 0, e.2.1 + t.retweetCount.getD 0,
            e.2.2 + 1))
          (0, 0, 0)) []
    let bestHours := ((stableSortDesc
      (fun e => ((e.2.1 : ℚ) + (e.2.2.1 : ℚ) * 2) / max (e.2.2.2 : ℚ) 1)
      hourly).take 3).map (fun e => e.1)
    let hashtagCounts : List (List Char × ℕ) := tweets.foldl (fun d t =>
      (runs (fun c => !pyIsSpace c) t.text).foldl (fun d w =>
        if "#".data.isPrefixOf w then updAssoc d (pyLower w) (· + 1) 0 else d) d) []
    let replyTweets := tweets.filter (fun t => t.isReply)
    let originalTweets := tweets.filter (fun t => !t.isReply)
    some {
      averageLikes := round2 ((sumMetric Tweet.likeCount tweets : ℚ) / n)
      averageRetweets := round2 ((sumMetric Tweet.retweetCount tweets : ℚ) / n)
      averageReplies := round2 ((sumMetric Tweet.replyCount tweets : ℚ) / n)
      averageQuotes := round2 ((sumMetric Tweet.quoteCount tweets : ℚ) / n)
      topPerformingTweets := (topTweets.take 5).map (fun t =>
        (if 100 < t.text.length then t.text.take 100 ++ "...".data else t.text,
         t.likeCount, t.retweetCount))
      bestPostingHours := bestHours
      averageTweetLength := round0 (((tweets.map (fun t => (t.text.length : ℚ))).sum) / n)
      topHashtags := ((stableSortDesc (fun kv => (kv.2 : ℚ)) hashtagCounts).take 10).map
        (fun kv => kv.1)
      engagementRepliesAvg := round2 (if replyTweets.isEmpty then 0 else
        ((sumMetric Tweet.likeCount replyTweets + sumMetric Tweet.retweetCount replyTweets : ℤ) : ℚ) /
          (replyTweets.length : ℚ))
      engagementOriginalAvg := round2 (if originalTweets.isEmpty then 0 else
        ((sumMetric Tweet.likeCount originalTweets + sumMetric Tweet.retweetCount originalTweets : ℤ) : ℚ) /
          (originalTweets.length : ℚ))
      totalTweetsAnalyzed := tweets.length }

/-! ### Profile health scoring (`analysis/profile_health.py`) -/

/-- `STOPWORDS` (apostrophes written with `\x27`). -/
def STOPWORDS : List (List Char) :=
  ["the", "and", "for", "that", "with", "this", "you", "your", "are", "was",
   "were", "but", "not", "have", "has", "had", "its", "it\x27s", "they",
   "them", "from", "about", "into", "over", "after", "before", "just",
   "than", "then", "what", "when", "where", "which", "who", "why", "how",
   "also", "their", "there", "here", "because", "been", "being", "i", "im",
   "i\x27m", "we", "our", "us", "my", "me"].map String.data

/-- `re.sub(r"https?://\S+", "", s)`: delete each URL-scheme-prefixed
non-space run, scanning left to right. The fuel argument is the remaining
input length, which strictly decreases at every step. -/
def removeUrlsAux : ℕ → List Char → List Char
  | 0, s => s
  | _ + 1, [] => []
  | fuel + 1, c :: cs =>
    if "https://".data.isPrefixOf (c :: cs) ∧
        ¬(((c :: cs).drop 8).takeWhile (fun ch => !pyIsSpace ch)).isEmpty then
      removeUrlsAux fuel (((c :: cs).drop 8).dropWhile (fun ch => !pyIsSpace ch))
    else if "http://".data.isPrefixOf (c :: cs) ∧
        ¬(((c :: cs).drop 7).takeWhile (fun ch => !pyIsSpace ch)).isEmpty then
      removeUrlsAux fuel (((c :: cs).drop 7).dropWhile (fun ch => !pyIsSpace ch))
    else c :: removeUrlsAux fuel cs

/-- `re.sub(r"https?://\S+", "", s)`. -/
def removeUrls (s : List Char) : List Char :=
  removeUrlsAux s.length s

/-- `_score_engagement_rate`. -/
def scoreEngagementRate (rate : ℚ) : ℚ :=
  if 1/50 ≤ rate then 1
  else if 1/100 ≤ rate then 4/5
  else if 1/200 ≤ rate then 3/5
  else if 1/500 ≤ rate then 9/20
  else if 1/1000 ≤ rate then 3/10
  else 1/5

/-- `_score_cadence`: returns (score, posts_per_week). -/
def scoreCadence (tweets : List Tweet) : ℚ × ℚ :=
  let dated := tweets.filterMap (fun t => t.createdAt)
  if dated.length < 2 then (2/5, 0)
  else
    let latest := dated.foldl max (dated.headD 0)
    let earliest := dated.foldl min (dated.headD 0)
    let spanDays : ℤ := max ((latest - earliest).fdiv 86400) 1
    let ppw : ℚ := (dated.length : ℚ) / (spanDays : ℚ) * 7
    (if ppw < 1 then 1/5
     else if ppw < 3 then 1/5 + (ppw - 1) * (1/5)
     else if ppw ≤ 10 then 9/10
     else if ppw ≤ 20 then 7/10
     else 1/2, ppw)

/-- `_get_average_length` (Python truthiness: a 0 value falls through). -/
def getAverageLength (voiceProfile : Option VoiceProfile)
    (patterns : Option EngagementPatterns) (tweets : List Tweet) : ℚ :=
  let fromVoice : Option ℚ :=
    match voiceProfile with
    | some v =>
      match v.averageTweetLength with
      | some len => if len = 0 then none else some (len : ℚ)
      | none => none
    | none => none
  match fromVoice with
  | some q => q
  | none =>
    let fromPatterns : Option ℚ :=
      match patterns with
      | some p => if p.averageTweetLength = 0 then none else some p.averageTweetLength
      | none => none
    match fromPatterns with
    | some q => q
    | none =>
      if tweets.isEmpty then 0
      else ((tweets.map (fun t => (t.text.length : ℚ))).sum) / (tweets.length : ℚ)

/-- `_score_length`. -/
def scoreLength (avgLength : ℚ) : ℚ :=
  if avgLength ≤ 0 then 2/5
  else if avgLength < 60 then 2/5
  else if avgLength < 90 then 3/5
  else if avgLength ≤ 200 then 19/20
  else if avgLength ≤ 240 then 7/10
  else 2/5

/-- `_reply_ratio`. -/
def replyFraction (tweets : List Tweet) : ℚ :=
  if tweets.isEmpty then 0
  else ((tweets.filter (fun t => t.isReply)).length : ℚ) / (tweets.length : ℚ)

/-- `_score_reply_ratio`. -/
def scoreReplyBalance (r : ℚ) : ℚ :=
  max (1/5) (1 - |r - 9/20| / (9/20))

/-- `_average_hashtags`. -/
def averageHashtags (tweets : List Tweet) : ℚ :=
  if tweets.isEmpty then 0
  else ((tweets.map (fun t => (tagCount '#' t.text : ℚ))).sum) / (tweets.length : ℚ)

/-- `_score_hashtags`. -/
def scoreHashtags (rate : ℚ) : ℚ :=
  if rate ≤ 3/10 then 1
  else if rate ≤ 1 then 17/20
  else if rate ≤ 2 then 3/5
  else if rate ≤ 3 then 2/5
  else 1/5

/-- `_average_links`. -/
def averageLinks (tweets : List Tweet) : ℚ :=
  if tweets.isEmpty then 0
  else (((tweets.filter (fun t => hasLink t.text)).length : ℚ)) / (tweets.length : ℚ)

/-- `_score_links`. -/
def scoreLinks (rate : ℚ) : ℚ :=
  if 1/20 ≤ rate ∧ rate ≤ 1/5 then 9/10
  else if rate < 1/20 then 3/5
  else if rate ≤ 7/20 then 7/10
  else 2/5

/-- `_score_topic_focus`: returns (score, metric). -/
def scoreTopicFocus (tweets : List Tweet)
    (voiceProfile : Option VoiceProfile) : ℚ × ℚ :=
  let byTopics : Option (ℚ × ℚ) :=
    match voiceProfile with
    | some v =>
      if v.commonTopics.isEmpty then none
      else
        let tc := v.commonTopics.length
        some (if 3 ≤ tc ∧ tc ≤ 7 then (1, (tc : ℚ))
          else if tc ≤ 2 then (1/2, (tc : ℚ))
          else if tc ≤ 12 then (7/10, (tc : ℚ))
          else (2/5, (tc : ℚ)))
    | none => none
  match byTopics with
  | some r => r
  | none =>
    let tokens := tweets.foldl (fun acc t =>
      acc ++ ((wordTokens (removeUrls (pyLower t.text))).filter (fun tok =>
        4 ≤ tok.length && tok.all Char.isLower && !STOPWORDS.contains tok))) []
    if tokens.isEmpty then (2/5, 0)
    else
      let counts := tokens.foldl (fun d tok => updAssoc d tok (· + 1) (0 : ℕ)) []
      let total := (counts.map (fun kv => kv.2)).sum
      let top := ((((stableSortDesc (fun kv => (kv.2 : ℚ)) counts).take 5)).map
        (fun kv => kv.2)).sum
      let concentration : ℚ := (top : ℚ) / max (total : ℚ) 1
      (if 9/50 ≤ concentration then 1
       else if 3/25 ≤ concentration then 4/5
       else if 2/25 ≤ concentration then 3/5
       else if 1/20 ≤ concentration then 2/5
       else 1/5, concentration)

/-- `_average_virality`. -/
def averageVirality (tweets : List Tweet) : ℚ :=
  if tweets.isEmpty then 2/5
  else
    let scores := (tweets.take 20).map (fun t =>
      (scoreTexts [t.text] (if t.isReply then .reply else .tweet)).score / 100)
    if scores.isEmpty then 2/5 else scores.sum / (scores.length : ℚ)

/-- `_score_profile_completeness`. -/
def scoreProfileCompleteness (userInfo : Option UserInfo) : ℚ :=
  match userInfo with
  | none => 1/2
  | some u =>
    let b := pyStrip (u.bioText.getD [])
    if 80 ≤ b.length then 1
    else if 20 ≤ b.length then 7/10
    else if 0 < b.length then 1/2
    else 3/10

/-- The `scores` dict of `score_profile_health`; it always carries exactly
these nine keys, so it is modelled as a structure. -/
structure HealthScores where
  engagementQuality : ℚ
  cadence : ℚ
  topicFocus : ℚ
  formatFit : ℚ
  conversationBalance : ℚ
  shareability : ℚ
  hashtagHygiene : ℚ
  linkBalance : ℚ
  profileCompleteness : ℚ
deriving DecidableEq, Repr

/-- `_weighted_overall`. The weights sum to 1 exactly in the rational model. -/
def weightedOverall (s : HealthScores) : ℚ :=
  let total : ℚ := 1/4 + 1/5 + 3/20 + 3/25 + 1/10 + 2/25 + 1/20 + 3/100 + 1/50
  let score := s.engagementQuality * (1/4) + s.shareability * (1/5) +
    s.cadence * (3/20) + s.topicFocus * (3/25) + s.formatFit * (1/10) +
    s.conversationBalance * (2/25) + s.hashtagHygiene * (1/20) +
    s.linkBalance * (3/100) + s.profileCompleteness * (1/50)
  round1 (score / max total (1/1000000) * 100)

/-- The `metrics` dict of `score_profile_health` (fixed keys → structure). -/
structure HealthMetrics where
  followers : ℤ
  avgEngagement : ℚ
  engagementRate : ℚ
  postsPerWeek : ℚ
  avgLength : ℚ
  replyRate : ℚ
  hashtagRate : ℚ
  linkRate : ℚ
  topicFocus : ℚ
  bestPostingHours : List ℤ
deriving DecidableEq, Repr

/-- One recommendation record of `_build_recommendations`. -/
structure Recommendation where
  title : String
  priority : String
  why : String
  actions : List String
deriving DecidableEq, Repr

/-- `_build_recommendations` (conditions in source order, truncated to 6). -/
def buildRecommendations (scores : HealthScores) : List Recommendation :=
  let recs : List Recommendation := []
  let recs := if scores.topicFocus < 3/5 then recs ++ [{
    title := "Sharpen topical focus", priority := "high",
    why := "Posts cover too many themes, which weakens recommendation signals.",
    actions := ["Pick 2–3 core topics and publish within those for 2 weeks.",
      "Create a recurring series or format to reinforce your niche."] }] else recs
  let recs := if scores.shareability < 3/5 then recs ++ [{
    title := "Increase shareable formats", priority := "high",
    why := "Recent posts are not triggering strong share signals.",
    actions := ["Publish 1–2 posts/week that include a framework, checklist, or strong takeaway.",
      "Open with a bold statement before supporting detail."] }] else recs
  let recs := if scores.engagementQuality < 3/5 then recs ++ [{
    title := "Strengthen engagement hooks", priority := "high",
    why := "Average engagement rate is low for the current follower base.",
    actions := ["Use sharper hooks and clearer takes (avoid hedging).",
      "End posts with a specific, natural prompt for replies."] }] else recs
  let recs := if scores.cadence < 3/5 then recs ++ [{
    title := "Stabilize posting cadence", priority := "medium",
    why := "Inconsistent posting reduces recency and distribution opportunities.",
    actions := ["Aim for 3–7 posts per week for the next month.",
      "Schedule posts during your best-performing hours."] }] else recs
  let recs := if scores.conversationBalance < 3/5 then recs ++ [{
    title := "Balance replies and originals", priority := "medium",
    why := "Conversation signals are not balanced across content.",
    actions := ["Keep ~30–50% of weekly posts as replies or quote tweets.",
      "Respond to high-quality threads in your niche."] }] else recs
  let recs := if scores.formatFit < 3/5 then recs ++ [{
    title := "Tighten post length", priority := "medium",
    why := "Average length is outside the best-performing range.",
    actions := ["Aim for 100–200 characters on single tweets.",
      "Use short lines or bullets for readability."] }] else recs
  let recs := if scores.hashtagHygiene < 3/5 then recs ++ [{
    title := "Reduce hashtag usage", priority := "low",
    why := "High hashtag density can look spammy to users.",
    actions := ["Limit to 0–1 hashtags per post.",
      "Replace hashtags with plain-language keywords."] }] else recs
  let recs := if scores.linkBalance < 3/5 then recs ++ [{
    title := "Increase standalone value", priority := "low",
    why := "Heavy link usage can reduce dwell and share signals.",
    actions := ["Include the key takeaway in the post itself.",
      "Use links sparingly and only when adding depth."] }] else recs
  let recs := if scores.profileCompleteness < 3/5 then recs ++ [{
    title := "Improve profile clarity", priority := "low",
    why := "A short bio weakens follow conversion.",
    actions := ["Add a clear value proposition in your bio.",
      "Highlight your niche and what people gain by following you."] }] else recs
  recs.take 6

/-- Decimal digits of a natural number (for Python `str(h)`); the fuel is an
upper bound on the digit count. -/
def natDigitsAux : ℕ → ℕ → List Char
  | 0, _ => []
  | _ + 1, n =>
    if n < 10 then [Char.ofNat (48 + n)]
    else natDigitsAux n (n / 10) ++ [Char.ofNat (48 + n % 10)]

/-- Decimal digits of a natural number. -/
def natDigits (n : ℕ) : List Char :=
  natDigitsAux (n + 1) n

/-- Python `str` of an integer. -/
def intToStr (i : ℤ) : String :=
  if i < 0 then "-" ++ (natDigits (-i).toNat).asString
  else (natDigits i.toNat).asString

/-- `_build_steps` (conditions in source order, truncated to 6). -/
def buildSteps (scores : HealthScores) (metrics : HealthMetrics) : List String :=
  let bestHours := metrics.bestPostingHours
  let steps : List String := []
  let steps := if scores.cadence < 7/10 then
    steps ++ ["Plan a 2-week schedule of 3–7 posts per week."] else steps
  let steps := if ¬bestHours.isEmpty then
    steps ++ ["Post during your best hours: " ++
      String.intercalate ", " ((bestHours.take 3).map (fun h => intToStr h ++ ":00")) ++ "."]
    else steps
  let steps := if scores.shareability < 7/10 then
    steps ++ ["Publish one framework/list post and one strong-opinion post weekly."] else steps
  let steps := if scores.conversationBalance < 7/10 then
    steps ++ ["Reply to 3–5 posts in your niche each week."] else steps
  let steps := if scores.topicFocus < 7/10 then
    steps ++ ["Commit to 2–3 core themes for the next 10 posts."] else steps
  let steps := if scores.formatFit < 7/10 then
    steps ++ ["Keep single tweets in the 100–200 character range."] else steps
  steps.take 6

/-- `ProfileHealthResult` dataclass. -/
structure ProfileHealthResult where
  username : String
  overallScore : ℚ
  scores : HealthScores
  metrics : HealthMetrics
  recommendations : List Recommendation
  steps : List String
deriving DecidableEq, Repr

/-- `score_profile_health`. -/
def scoreProfileHealth (username : String) (tweets : List Tweet)
    (userInfo : Option UserInfo) (voiceProfile : Option VoiceProfile) :
    ProfileHealthResult :=
  let patterns := analyzeEngagementPatterns tweets
  let followers : Option ℤ :=
    match userInfo with
    | some u => u.followersCount
    | none => none
  let avgLikes : ℚ := match patterns with | some p => p.averageLikes | none => 0
  let avgRetweets : ℚ := match patterns with | some p => p.averageRetweets | none => 0
  let avgReplies : ℚ := match patterns with | some p => p.averageReplies | none => 0
  let avgQuotes : ℚ := match patterns with | some p => p.averageQuotes | none => 0
  let avgEngagement := avgLikes + avgRetweets * 2 + avgReplies + avgQuotes
  let engagementRate := avgEngagement /
    max (match followers with
      | none => (1 : ℚ)
      | some f => if f = 0 then 1 else (f : ℚ)) 1
  let cad := scoreCadence tweets
  let engagementScore := scoreEngagementRate engagementRate
  let avgLength := getAverageLength voiceProfile patterns tweets
  let formatScore := scoreLength avgLength
  let replyR := replyFraction tweets
  let conversationScore := scoreReplyBalance replyR
  let hashtagRate := averageHashtags tweets
  let hashtagScore := scoreHashtags hashtagRate
  let linkRate := averageLinks tweets
  let linkScore := scoreLinks linkRate
  let topic := scoreTopicFocus tweets voiceProfile
  let viralityAvg := averageVirality tweets
  let profileScore := scoreProfileCompleteness userInfo
  let scores : HealthScores := {
    engagementQuality := engagementScore
    cadence := cad.1
    topicFocus := topic.1
    formatFit := formatScore
    conversationBalance := conversationScore
    shareability := viralityAvg
    hashtagHygiene := hashtagScore
    linkBalance := linkScore
    profileCompleteness := profileScore }
  let metrics : HealthMetrics := {
    followers := match followers with | some f => f | none => 0
    avgEngagement := round2 avgEngagement
    engagementRate := round4 engagementRate
    postsPerWeek := round2 cad.2
    avgLength := round1 avgLength
    replyRate := round2 replyR
    hashtagRate := round2 hashtagRate
    linkRate := round2 linkRate
    topicFocus := round3 topic.2
    bestPostingHours := match patterns with | some p => p.bestPostingHours | none => [] }
  { username := username
    overallScore := weightedOverall scores
    scores := scores
    metrics := metrics
    recommendations := buildRecommendations scores
    steps := buildSteps scores metrics }

/-! ### Claim-side specification definitions and concrete inputs -/

/-- The engagement-rate threshold table exactly as the spec words it
(≥0.02→1.0, ≥0.01→0.8, ≥0.005→0.6, ≥0.002→0.45, ≥0.001→0.3, else 0.2). -/
def engagementRateTableSpec (rate : ℚ) : ℚ :=
  if 2/100 ≤ rate then 1
  else if 1/100 ≤ rate then 8/10
  else if 5/1000 ≤ rate then 6/10
  else if 2/1000 ≤ rate then 45/100
  else if 1/1000 ≤ rate then 3/10
  else 2/10

/-- The engagement-quality sub-score exactly as claim C6 states it: each
average is the plain arithmetic mean over all given posts (missing counts 0),
`avg_engagement = avg_likes + avg_reposts*2 + avg_replies + avg_quotes`, and
`rate = avg_engagement / max(followers, 1)` (an absent follower count counts
as 1). -/
def engagementQualityClaimed (tweets : List Tweet) (followers : Option ℤ) : ℚ :=
  let n : ℚ := tweets.length
  let avgLikes := (sumMetric Tweet.likeCount tweets : ℚ) / n
  let avgReposts := (sumMetric Tweet.retweetCount tweets : ℚ) / n
  let avgReplies := (sumMetric Tweet.replyCount tweets : ℚ) / n
  let avgQuotes := (sumMetric Tweet.quoteCount tweets : ℚ) / n
  let rate := (avgLikes + avgReposts * 2 + avgReplies + avgQuotes) /
    max (match followers with | none => (1 : ℚ) | some f => (f : ℚ)) 1
  engagementRateTableSpec rate

/-- The engagement-quality sub-score as amended: the same computation as
`engagementQualityClaimed`, except that each per-post average is first
rounded half-to-even to 2 decimal places (as the analytics layer stores it). -/
def engagementQualityRounded (tweets : List Tweet) (followers : Option ℤ) : ℚ :=
  let n : ℚ := tweets.length
  let avgLikes := round2 ((sumMetric Tweet.likeCount tweets : ℚ) / n)
  let avgReposts := round2 ((sumMetric Tweet.retweetCount tweets : ℚ) / n)
  let avgReplies := round2 ((sumMetric Tweet.replyCount tweets : ℚ) / n)
  let avgQuotes := round2 ((sumMetric Tweet.quoteCount tweets : ℚ) / n)
  let rate := (avgLikes + avgReposts * 2 + avgReplies + avgQuotes) /
    max (match followers with | none => (1 : ℚ) | some f => (f : ℚ)) 1
  engagementRateTableSpec rate

/-- The ideal length band per content type as claim C8 states it. -/
def idealBandSpec (contentType : ContentType) : ℕ × ℕ :=
  match contentType with
  | .reply => (60, 200)
  | .quote => (80, 200)
  | .thread => (120, 260)
  | .tweet => (100, 220)

/-- The trapezoidal length score exactly as claim C8 states it: 0 outside the
hard bounds 30–280, a linear ramp from the hard bound to the ideal band, and
exactly 1 inside the ideal band. -/
def trapezoidSpec (length : ℕ) (contentType : ContentType) : ℚ :=
  let band := idealBandSpec contentType
  if length ≤ 30 ∨ 280 ≤ length then 0
  else if length < band.1 then ((length : ℚ) - 30) / ((band.1 : ℚ) - 30)
  else if length ≤ band.2 then 1
  else ((280 : ℚ) - (length : ℚ)) / ((280 : ℚ) - (band.2 : ℚ))

/-- The non-THREAD parse exactly as claim C10 states it: the first non-empty,
non-purely-numeric line of the output, or the full trimmed text when no such
line exists. -/
def parseSingleClaimed (generatedText : List Char) : List Char :=
  let text := pyStrip generatedText
  match ((splitOnChar '\n' text).map pyStrip).find?
      (fun l => !l.isEmpty && !(l.all Char.isDigit)) with
  | some l => l
  | none => text

/-- The non-THREAD parse as amended: when the trimmed text has more than one
line, the first stripped line that is non-empty and does not start with a
digit; otherwise (single line, or no qualifying line) the full trimmed text. -/
def parseSingleAmended (generatedText : List Char) : List Char :=
  let text := pyStrip generatedText
  let lines := splitOnChar '\n' text
  if 1 < lines.length then
    match (lines.map pyStrip).find?
        (fun l => !l.isEmpty && !(l.headD ' ').isDigit) with
    | some l => l
    | none => text
  else text

/-- Three posts with like counts 0, 0, 1 (exact mean 1/3, stored mean 0.33). -/
def cSixTweets : List Tweet :=
  [{ tweetId := "1", text := "hi".data, likeCount := some 0 },
   { tweetId := "2", text := "hi".data, likeCount := some 0 },
   { tweetId := "3", text := "hi".data, likeCount := some 1 }]

/-- A profile with 166 followers (1/3 / 166 ≥ 0.002 but 0.33 / 166 < 0.002). -/
def cSixUserInfo : UserInfo :=
  { username := "u", followersCount := some 166 }

/-- Ten posts evenly spaced exactly one day apart (span 9 days). -/
def cSevenTweets : List Tweet :=
  (List.range 10).map (fun k =>
    { tweetId := "t", text := "hi".data, createdAt := some (86400 * (k : ℤ)) })

/-- Thread input whose merged notes reach 6 distinct entries before the
"Strong hook" insertion. -/
def cNineThread : List (List Char) :=
  ["truth: 5 mistakes".data, "agree?".data,
   "read the full guide www.x.com".data, "rt if".data, "".data]

/-! ### Helper lemmas -/

theorem rhe_nonneg (q : ℚ) (h : 0 ≤ q) : 0 ≤ rhe q := by
  unfold rhe
  dsimp only
  have hf : 0 ≤ ⌊q⌋ := Int.floor_nonneg.mpr h
  split_ifs <;> omega

theorem rhe_le_of_le (q : ℚ) (n : ℤ) (h : q ≤ (n : ℚ)) : rhe q ≤ n := by
  unfold rhe
  dsimp only
  have hfl : ⌊q⌋ ≤ n := by
    have : ⌊q⌋ ≤ ⌊(n : ℚ)⌋ := Int.floor_le_floor h
    simpa using this
  split_ifs with h1 h2 h3
  · exact hfl
  · have hlt : (⌊q⌋ : ℚ) < q := by
      have hr : (1 : ℚ)/2 < q - ⌊q⌋ := h2
      linarith
    have : (⌊q⌋ : ℚ) < (n : ℚ) := lt_of_lt_of_le hlt h
    have : ⌊q⌋ < n := by exact_mod_cast this
    omega
  · exact hfl
  · have hlt : (⌊q⌋ : ℚ) < q := by
      have hr : (1 : ℚ)/2 ≤ q - ⌊q⌋ := le_of_not_lt h1
      linarith
    have : (⌊q⌋ : ℚ) < (n : ℚ) := lt_of_lt_of_le hlt h
    have : ⌊q⌋ < n := by exact_mod_cast this
    omega

theorem round1_mem (q : ℚ) (h0 : 0 ≤ q) (h1 : q ≤ 100) :
    0 ≤ round1 q ∧ round1 q ≤ 100 := by
  unfold round1
  have ha : 0 ≤ rhe (q * 10) := rhe_nonneg _ (by linarith)
  have hb : rhe (q * 10) ≤ 1000 := rhe_le_of_le _ 1000 (by push_cast; linarith)
  constructor
  · have : (0 : ℚ) ≤ (rhe (q * 10) : ℚ) := by exact_mod_cast ha
    linarith
  · have : ((rhe (q * 10) : ℚ)) ≤ 1000 := by exact_mod_cast hb
    linarith

theorem aggregateScore_nonneg (d : List (String × ℚ)) : 0 ≤ aggregateScore d :=
  le_max_left 0 _

theorem aggregateScore_le (d : List (String × ℚ)) : aggregateScore d ≤ 100 :=
  max_le (by norm_num) (min_le_left _ _)

theorem hookScore_nonneg (t : List Char) : 0 ≤ hookScore t := by
  unfold hookScore
  dsimp only
  split_ifs <;> norm_num

theorem pyDedupAux_not_mem_seen {α : Type} [DecidableEq α] (l : List α) :
    ∀ (seen : List α) (a : α), a ∈ pyDedupAux seen l → a ∉ seen := by
  induction l with
  | nil => intro seen a ha; simp [pyDedupAux] at ha
  | cons x xs ih =>
    intro seen a ha
    rw [pyDedupAux] at ha
    by_cases hx : x ∈ seen
    · rw [if_pos hx] at ha
      exact ih seen a ha
    · rw [if_neg hx] at ha
      rcases List.mem_cons.mp ha with h | h
      · subst h; exact hx
      · have := ih (x :: seen) a h
        intro hs
        exact this (List.mem_cons_of_mem x hs)

theorem pyDedupAux_nodup {α : Type} [DecidableEq α] (l : List α) :
    ∀ seen : List α, (pyDedupAux seen l).Nodup := by
  induction l with
  | nil => intro seen; simp [pyDedupAux]
  | cons x xs ih =>
    intro seen
    rw [pyDedupAux]
    by_cases hx : x ∈ seen
    · rw [if_pos hx]; exact ih seen
    · rw [if_neg hx]
      refine List.nodup_cons.mpr ⟨?_, ih (x :: seen)⟩
      intro hmem
      exact pyDedupAux_not_mem_seen xs (x :: seen) x hmem (List.mem_cons_self x seen)

theorem pyDedup_nodup {α : Type} [DecidableEq α] (l : List α) :
    (pyDedup l).Nodup :=
  pyDedupAux_nodup l []

theorem scoreTexts_score_bounds (texts : List (List Char)) (ct : ContentType) :
    0 ≤ (scoreTexts texts ct).score ∧ (scoreTexts texts ct).score ≤ 100 := by
  rcases texts with _ | ⟨t, ts⟩
  · simp [scoreTexts]
  · unfold scoreTexts
    dsimp only
    rw [if_neg (by simp)]
    set divided := ((((t :: ts).map fun t => scoreText t ct).foldl (fun d r =>
      r.components.foldl (fun d kv => dSet d kv.1 (dGet d kv.1 0 + kv.2)) d)
      []).map fun kv =>
        (kv.1, kv.2 / ((((t :: ts).map fun t => scoreText t ct)).length : ℚ)))
      with hdiv
    have hagg0 := aggregateScore_nonneg divided
    have hagg1 := aggregateScore_le divided
    by_cases hct : ct = ContentType.thread
    · subst hct
      simp only [if_pos rfl]
      have hh0 := hookScore_nonneg t
      refine round1_mem _ ?_ ?_
      · exact le_min (by norm_num) (by nlinarith)
      · exact min_le_left _ _
    · simp only [if_neg hct]
      exact round1_mem _ hagg0 hagg1

/-! ### Claim theorems -/

/-- C1: for every input content (a single string or a list of strings) and
every content type, the `score` field of the `ViralityResult` returned by
`ViralityScorer.score` lies in the closed interval [0, 100]. -/
theorem c1_score_in_range (content : ScoreInput) (contentType : ContentType) :
    0 ≤ (scoreContent content contentType).score ∧
      (scoreContent content contentType).score ≤ 100 := by
  unfold scoreContent
  exact scoreTexts_score_bounds _ contentType

/-- C2 counterexample: for the empty string (content type TWEET) the notes of
`ViralityScorer.score` are `["Empty content"]`, not `["No content to score"]`
as the claim states. -/
theorem c2_counterexample :
    (scoreContent (.str "".data) .tweet).notes = ["Empty content"] ∧
      (scoreContent (.str "".data) .tweet).notes ≠ ["No content to score"] := by
  constructor <;> decide

/-- C2 amended: the empty string (content type TWEET) yields score 0,
empty components and notes `["Empty content"]`; the empty list yields score 0,
empty components and notes `["No content to score"]`. -/
theorem c2_amended :
    scoreContent (.str "".data) .tweet =
      { score := 0, components := [], notes := ["Empty content"] } ∧
    scoreContent (.list []) .tweet =
      { score := 0, components := [], notes := ["No content to score"] } := by
  constructor <;> decide

/-- C4: parsing the numbered thread text `"1/3 first\n2/3 second\n3/3 third"`
as a THREAD yields exactly `["first", "second", "third"]`, and the same marker
logic accepts the numbering variants `"1/5"`, `"1)"` and `"1."`. -/
theorem c4_thread_roundtrip :
    parseThread "1/3 first\n2/3 second\n3/3 third".data =
      ["first".data, "second".data, "third".data] ∧
    parseThread "1/5 alpha\n2/5 beta".data = ["alpha".data, "beta".data] ∧
    parseThread "1) alpha\n2) beta".data = ["alpha".data, "beta".data] ∧
    parseThread "1. alpha\n2. beta".data = ["alpha".data, "beta".data] := by
  refine ⟨?_, ?_, ?_, ?_⟩ <;> decide

/-- C5 counterexample: parsing the empty string as a THREAD returns the
single-element list containing the empty string, so the parsed segments are
not always non-empty as the claim states. -/
theorem c5_counterexample :
    parseThread "".data = [[]] ∧ ([] : List Char) ∈ parseThread "".data := by
  constructor <;> decide

/-- C6 counterexample: for three posts with like counts 0, 0, 1 and a
follower count of 166, the code computes the engagement-quality sub-score 0.3
(the stored average 0.33 gives rate 0.33/166 < 0.002), while the claim's
exact-mean formula gives 0.45 (rate (1/3)/166 ≥ 0.002). -/
theorem c6_counterexample :
    (scoreProfileHealth "u" cSixTweets (some cSixUserInfo) none).scores.engagementQuality
        = 3/10 ∧
      engagementQualityClaimed cSixTweets (some 166) = 9/20 ∧
      (3/10 : ℚ) ≠ 9/20 := by
  refine ⟨?_, ?_, ?_⟩ <;> decide

/-- C7 counterexample: for ten posts spaced exactly one day apart the span is
9 days, so the cadence computation yields posts_per_week = 10/9·7 = 70/9
(≈ 7.78), which is not approximately 7.0 (it differs from 7 by more than
one half); the cadence score is nevertheless 0.9. -/
theorem c7_counterexample :
    scoreCadence cSevenTweets = (9/10, 70/9) ∧
      ¬(|(scoreCadence cSevenTweets).2 - 7| ≤ 1/2) := by
  constructor <;> decide

/-- C7 amended: for ten posts spaced exactly one day apart, posts_per_week is
70/9 ≈ 7.78 (stored in the metrics as 7.78 after rounding) and the cadence
sub-score is exactly 0.9. -/
theorem c7_amended :
    scoreCadence cSevenTweets = (9/10, 70/9) ∧
      (scoreProfileHealth "u" cSevenTweets none none).scores.cadence = 9/10 ∧
      (scoreProfileHealth "u" cSevenTweets none none).metrics.postsPerWeek
        = 389/50 := by
  refine ⟨?_, ?_, ?_⟩ <;> decide

/-- C9 counterexample: a THREAD input whose merged notes already hold six
distinct entries gets "Strong hook" prepended afterwards, producing seven
notes — more than the claimed maximum of six. -/
theorem c9_counterexample :
    (scoreContent (.list cNineThread) .thread).notes.length = 7 := by
  decide

/-- C10 counterexample: for the non-THREAD output `"3 ways to win\nhello"`
the code returns `"hello"` (it skips every line that starts with a digit),
while the claimed rule — first non-empty, non-purely-numeric line — selects
`"3 ways to win"`. -/
theorem c10_counterexample :
    parseSingle "3 ways to win\nhello".data = "hello".data ∧
      parseSingleClaimed "3 ways to win\nhello".data = "3 ways to win".data ∧
      parseSingle "3 ways to win\nhello".data ≠
        parseSingleClaimed "3 ways to win\nhello".data := by
  refine ⟨?_, ?_, ?_⟩ <;> decide

/-- C8: for every character length and content type the per-segment length
score is the trapezoid the claim describes: 0 outside the hard bounds 30–280,
a linear ramp from hard bound to the content-type-specific ideal band
(REPLY 60–200, QUOTE 80–200, THREAD 120–260, TWEET 100–220), and exactly 1
inside the ideal band. -/
theorem c8_length_trapezoid (n : ℕ) (ct : ContentType) :
    lengthScore n ct = trapezoidSpec n ct ∧
    idealBandSpec .reply = (60, 200) ∧ idealBandSpec .quote = (80, 200) ∧
    idealBandSpec .thread = (120, 260) ∧ idealBandSpec .tweet = (100, 220) := by
  refine ⟨?_, rfl, rfl, rfl, rfl⟩
  have key : ∀ imin imax : ℕ, 30 < imin → imax < 280 → imin ≤ imax →
      (if n ≤ 30 ∨ 280 ≤ n then (0 : ℚ)
       else if n < imin then ((n : ℚ) - 30) / max ((imin : ℚ) - 30) 1
       else if imax < n then
         max 0 (((280 : ℚ) - (n : ℚ)) / max ((280 : ℚ) - (imax : ℚ)) 1)
       else 1) =
      (if n ≤ 30 ∨ 280 ≤ n then (0 : ℚ)
       else if n < imin then ((n : ℚ) - 30) / ((imin : ℚ) - 30)
       else if n ≤ imax then 1
       else ((280 : ℚ) - (n : ℚ)) / ((280 : ℚ) - (imax : ℚ))) := by
    intro imin imax h1 h2 h3
    have h1q : (31 : ℚ) ≤ (imin : ℚ) := by exact_mod_cast h1
    have h2q : (imax : ℚ) ≤ 279 := by exact_mod_cast Nat.le_of_lt_succ (by omega)
    split_ifs with hA hB hC hD hD'
    · rfl
    · rw [max_eq_left (by linarith)]
    · omega
    · have hden : max ((280 : ℚ) - (imax : ℚ)) 1 = (280 : ℚ) - (imax : ℚ) :=
        max_eq_left (by linarith)
      rw [hden]
      have hn : n < 280 := by omega
      have hnq : (n : ℚ) ≤ 280 := by exact_mod_cast hn.le
      exact max_eq_right (div_nonneg (by linarith) (by linarith))
    · rfl
    · omega
  cases ct <;>
    · unfold lengthScore trapezoidSpec idealBandSpec
      dsimp only
      exact key _ _ (by norm_num) (by norm_num) (by norm_num)

theorem firstNonDigitLine_eq_find (lines : List (List Char)) :
    firstNonDigitLine lines = (lines.map pyStrip).find?
      (fun l => !l.isEmpty && !(l.headD ' ').isDigit) := by
  induction lines with
  | nil => rfl
  | cons x xs ih =>
    rw [firstNonDigitLine]
    simp only [List.map_cons]
    cases hE : (pyStrip x).isEmpty with
    | true =>
      rw [if_neg (by simp), List.find?_cons]
      rw [hE]
      exact ih
    | false =>
      cases hD : ((pyStrip x).headD ' ').isDigit with
      | true =>
        rw [if_neg (by simp), List.find?_cons]
        rw [hE, hD]
        exact ih
      | false =>
        rw [if_pos ⟨by simp, by simp⟩, List.find?_cons]
        rw [hE, hD]
        rfl

/-- C10 amended: for a non-THREAD content type, parsing returns the first
stripped line that is non-empty and does not start with a digit, provided the
trimmed output has more than one line; otherwise (single line, or no
qualifying line) it returns the full trimmed text. -/
theorem c10_amended (generatedText : List Char) :
    parseSingle generatedText = parseSingleAmended generatedText := by
  unfold parseSingle parseSingleAmended
  dsimp only
  rw [firstNonDigitLine_eq_find]

theorem scoreTexts_notes_ok (texts : List (List Char)) (ct : ContentType) :
    (scoreTexts texts ct).notes.Nodup ∧
      (scoreTexts texts ct).notes.length ≤ (if ct = .thread then 7 else 6) := by
  unfold scoreTexts
  by_cases h : (texts.map (fun t => scoreText t ct)).isEmpty
  · rw [if_pos h]
    constructor
    · simp
    · split_ifs <;> simp
  · rw [if_neg h]
    dsimp only
    set notes0 := (pyDedup ((texts.map (fun t => scoreText t ct)).foldl
      (fun acc r => acc ++ r.notes) [])).take 6 with hnotes0
    have hnd : notes0.Nodup := (pyDedup_nodup _).sublist (List.take_sublist _ _)
    have hlen : notes0.length ≤ 6 := by
      rw [hnotes0]
      exact (List.length_take_le _ _)
    by_cases hct : ct = .thread
    · subst hct
      rw [if_pos rfl, if_pos rfl]
      rcases texts with _ | ⟨t, ts⟩
      · exact ⟨hnd, le_trans hlen (by norm_num)⟩
      · show (if 3/5 < hookScore t ∧ "Strong hook" ∉ notes0
            then "Strong hook" :: notes0 else notes0).Nodup ∧
          (if 3/5 < hookScore t ∧ "Strong hook" ∉ notes0
            then "Strong hook" :: notes0 else notes0).length ≤ 7
        by_cases hcond : 3/5 < hookScore t ∧ "Strong hook" ∉ notes0
        · rw [if_pos hcond]
          refine ⟨List.nodup_cons.mpr ⟨hcond.2, hnd⟩, ?_⟩
          simpa using Nat.add_le_add_right hlen 1
        · rw [if_neg hcond]
          exact ⟨hnd, le_trans hlen (by norm_num)⟩
    · rw [if_neg hct, if_neg hct]
      exact ⟨hnd, hlen⟩

/-- C9 amended: the notes of a `ViralityResult` are always duplicate-free; a
non-THREAD call returns at most 6 notes, while a THREAD call can reach 7
(6 merged notes plus a prepended "Strong hook"). -/
theorem c9_amended (content : ScoreInput) (contentType : ContentType) :
    (scoreContent content contentType).notes.Nodup ∧
      (scoreContent content contentType).notes.length ≤
        (if contentType = .thread then 7 else 6) := by
  cases content <;> exact scoreTexts_notes_ok _ _

theorem joinSpace_ne_nil (l : List (List Char)) (h0 : l ≠ [])
    (h1 : ∀ x ∈ l, x ≠ []) : joinSpace l ≠ [] := by
  match l with
  | [] => exact absurd rfl h0
  | [x] => exact h1 x (List.mem_singleton_self x)
  | x :: y :: ys => simp [joinSpace]

theorem mem_threadFirstPass_ne_nil {s : List Char} {raw : List Char}
    (h : s ∈ threadFirstPass raw) : s ≠ [] := by
  unfold threadFirstPass at h
  have := List.of_mem_filter h
  simpa using this

theorem mem_threadParagraphs_ne_nil {s : List Char} {raw : List Char}
    (h : s ∈ threadParagraphs raw) : s ≠ [] := by
  unfold threadParagraphs at h
  have := List.of_mem_filter h
  simpa using this

theorem chunkLoop_mem_ne_nil (sents : List (List Char)) :
    ∀ (chunks cur : List (List Char)) (curLen : ℕ),
      (∀ c ∈ chunks, c ≠ []) → (∀ x ∈ cur, x ≠ []) →
      ∀ s ∈ chunkLoop chunks cur curLen sents, s ≠ [] := by
  induction sents with
  | nil =>
    intro chunks cur curLen hch hcur s hs
    rw [chunkLoop] at hs
    by_cases hc : cur.isEmpty
    · rw [if_pos hc] at hs
      exact hch s hs
    · rw [if_neg hc] at hs
      rcases List.mem_append.mp hs with hmem | hmem
      · exact hch s hmem
      · have hs' : s = joinSpace cur := by simpa using hmem
        subst hs'
        exact joinSpace_ne_nil cur (by simpa using hc) hcur
  | cons sent rest ih =>
    intro chunks cur curLen hch hcur s hs
    rw [chunkLoop] at hs
    dsimp only at hs
    by_cases h1 : (pyStrip sent).isEmpty
    · rw [if_pos h1] at hs
      exact ih chunks cur curLen hch hcur s hs
    · rw [if_neg h1] at hs
      have hsent : pyStrip sent ≠ [] := by simpa using h1
      by_cases h2 : 260 < curLen + ((pyStrip sent).length + 1) ∧ ¬cur.isEmpty
      · rw [if_pos h2] at hs
        refine ih _ _ _ ?_ ?_ s hs
        · intro c hc
          rcases List.mem_append.mp hc with hmem | hmem
          · exact hch c hmem
          · have hc' : c = joinSpace cur := by simpa using hmem
            subst hc'
            exact joinSpace_ne_nil cur (by simpa using h2.2) hcur
        · intro x hx
          have hx' : x = pyStrip sent := by simpa using hx
          subst hx'
          exact hsent
      · rw [if_neg h2] at hs
        refine ih _ _ _ hch ?_ s hs
        intro x hx
        rcases List.mem_append.mp hx with hmem | hmem
        · exact hcur x hmem
        · have hx' : x = pyStrip sent := by simpa using hmem
          subst hx'
          exact hsent

theorem mem_threadChunks_ne_nil {s : List Char} {text : List Char}
    (h : s ∈ threadChunks text) : s ≠ [] := by
  unfold threadChunks at h
  exact chunkLoop_mem_ne_nil _ [] [] 0 (by simp) (by simp) s h

theorem mem_threadSelect_ne_nil {s : List Char} {raw : List Char}
    (h : s ∈ threadSelect raw) : s ≠ [] := by
  unfold threadSelect at h
  dsimp only at h
  by_cases h1 : (threadFirstPass raw).length < 2
  · rw [if_pos h1] at h
    by_cases h2 : 1 < (threadParagraphs raw).length
    · rw [if_pos h2] at h
      exact mem_threadParagraphs_ne_nil h
    · rw [if_neg h2] at h
      by_cases h3 : 400 < (pyStrip raw).length ∧ ¬(threadChunks (pyStrip raw)).isEmpty
      · rw [if_pos h3] at h
        exact mem_threadChunks_ne_nil (List.mem_of_mem_take h)
      · rw [if_neg h3] at h
        exact mem_threadFirstPass_ne_nil h
  · rw [if_neg h1] at h
    exact mem_threadFirstPass_ne_nil h

/-- C5 amended: the THREAD parser never fails and always returns at least one
segment; every segment is non-empty provided the trimmed raw text is
non-empty (a raw text that trims to nothing yields the single segment `""`,
the whole trimmed raw text). -/
theorem c5_amended (generatedText : List Char) :
    1 ≤ (parseThread generatedText).length ∧
      (pyStrip generatedText ≠ [] →
        ∀ s ∈ parseThread generatedText, s ≠ []) := by
  unfold parseThread
  dsimp only
  by_cases he : (threadSelect generatedText).isEmpty
  · rw [if_pos he]
    refine ⟨by simp, ?_⟩
    intro hne s hs
    have : s = pyStrip generatedText := by simpa using hs
    subst this
    exact hne
  · rw [if_neg he]
    constructor
    · have : threadSelect generatedText ≠ [] := by simpa using he
      have := List.length_pos.mpr this
      omega
    · intro _ s hs
      exact mem_threadSelect_ne_nil hs

/-- C5 witness: at the concrete input "hello" the parser returns one non-empty
segment. -/
theorem c5_witness :
    1 ≤ (parseThread "hello".data).length ∧
      ∀ s ∈ parseThread "hello".data, s ≠ [] :=
  ⟨(c5_amended "hello".data).1, (c5_amended "hello".data).2 (by decide)⟩

/-- C6 amended: the engagement-quality sub-score is computed exactly as the
claim states, except that each per-post average (likes, reposts, replies,
quotes) is first rounded half-to-even to 2 decimal places by the analytics
layer before the rate and the threshold table are applied. -/
theorem c6_amended (username : String) (tweets : List Tweet)
    (userInfo : Option UserInfo) (voiceProfile : Option VoiceProfile) :
    (scoreProfileHealth username tweets userInfo voiceProfile).scores.engagementQuality =
      engagementQualityRounded tweets
        (match userInfo with | some u => u.followersCount | none => none) := by
  have hbase : ∀ fo : Option ℤ,
      max (match fo with | none => (1 : ℚ) | some f => if f = 0 then 1 else (f : ℚ)) 1 =
      max (match fo with | none => (1 : ℚ) | some f => (f : ℚ)) 1 := by
    intro fo
    rcases fo with _ | f
    · rfl
    · dsimp only
      by_cases hf : f = 0
      · subst hf; norm_num
      · rw [if_neg hf]
  have htable : ∀ r : ℚ, scoreEngagementRate r = engagementRateTableSpec r := by
    intro r; rfl
  unfold scoreProfileHealth engagementQualityRounded
  dsimp only
  rcases tweets with _ | ⟨t, ts⟩
  · rw [show analyzeEngagementPatterns [] = none from rfl]
    dsimp only
    simp only [sumMetric, List.map_nil, List.sum_nil, List.length_nil,
      Nat.cast_zero, Int.cast_zero, div_zero, zero_div]
    norm_num [scoreEngagementRate, engagementRateTableSpec, round2, rhe]
  · rw [show analyzeEngagementPatterns (t :: ts) =
      some _ from by rw [analyzeEngagementPatterns, if_neg (by simp)]]
    dsimp only
    rw [htable, hbase]

theorem scoreEngagementRate_mem (r : ℚ) :
    0 ≤ scoreEngagementRate r ∧ scoreEngagementRate r ≤ 1 := by
  unfold scoreEngagementRate
  split_ifs <;> norm_num

theorem scoreLength_mem (q : ℚ) : 0 ≤ scoreLength q ∧ scoreLength q ≤ 1 := by
  unfold scoreLength
  split_ifs <;> norm_num

theorem scoreHashtags_mem (r : ℚ) : 0 ≤ scoreHashtags r ∧ scoreHashtags r ≤ 1 := by
  unfold scoreHashtags
  split_ifs <;> norm_num

theorem scoreLinks_mem (r : ℚ) : 0 ≤ scoreLinks r ∧ scoreLinks r ≤ 1 := by
  unfold scoreLinks
  split_ifs <;> norm_num

theorem scoreReplyBalance_mem (r : ℚ) :
    0 ≤ scoreReplyBalance r ∧ scoreReplyBalance r ≤ 1 := by
  unfold scoreReplyBalance
  constructor
  · have : (1:ℚ)/5 ≤ max (1/5) (1 - |r - 9/20| / (9/20)) := le_max_left _ _
    linarith
  · apply max_le (by norm_num)
    have h0 : 0 ≤ |r - 9/20| / (9/20) := div_nonneg (abs_nonneg _) (by norm_num)
    linarith

theorem scoreProfileCompleteness_mem (ui : Option UserInfo) :
    0 ≤ scoreProfileCompleteness ui ∧ scoreProfileCompleteness ui ≤ 1 := by
  unfold scoreProfileCompleteness
  rcases ui with _ | u
  · norm_num
  · dsimp only
    split_ifs <;> norm_num

theorem scoreTopicFocus_fst_mem (tweets : List Tweet) (vp : Option VoiceProfile) :
    0 ≤ (scoreTopicFocus tweets vp).1 ∧ (scoreTopicFocus tweets vp).1 ≤ 1 := by
  unfold scoreTopicFocus
  dsimp only
  rcases vp with _ | v
  · dsimp only
    split_ifs <;> norm_num
  · dsimp only
    by_cases hv : v.commonTopics.isEmpty
    · rw [if_pos hv]
      dsimp only
      split_ifs <;> norm_num
    · rw [if_neg hv]
      dsimp only
      split_ifs <;> norm_num

theorem weightedOverall_mem (s : HealthScores)
    (h1 : 0 ≤ s.engagementQuality ∧ s.engagementQuality ≤ 1)
    (h2 : 0 ≤ s.cadence ∧ s.cadence ≤ 1)
    (h3 : 0 ≤ s.topicFocus ∧ s.topicFocus ≤ 1)
    (h4 : 0 ≤ s.formatFit ∧ s.formatFit ≤ 1)
    (h5 : 0 ≤ s.conversationBalance ∧ s.conversationBalance ≤ 1)
    (h6 : 0 ≤ s.shareability ∧ s.shareability ≤ 1)
    (h7 : 0 ≤ s.hashtagHygiene ∧ s.hashtagHygiene ≤ 1)
    (h8 : 0 ≤ s.linkBalance ∧ s.linkBalance ≤ 1)
    (h9 : 0 ≤ s.profileCompleteness ∧ s.profileCompleteness ≤ 1) :
    0 ≤ weightedOverall s ∧ weightedOverall s ≤ 100 := by
  unfold weightedOverall
  dsimp only
  rw [show max ((1:ℚ)/4 + 1/5 + 3/20 + 3/25 + 1/10 + 2/25 + 1/20 + 3/100 + 1/50)
    (1/1000000) = 1 by norm_num]
  rw [div_one]
  refine round1_mem _ ?_ ?_
  · nlinarith [h1.1, h2.1, h3.1, h4.1, h5.1, h6.1, h7.1, h8.1, h9.1]
  · nlinarith [h1.2, h2.2, h3.2, h4.2, h5.2, h6.2, h7.2, h8.2, h9.2]

/-- C3: for every handle and the empty post list (with or without profile
info and voice profile) `score_profile_health` returns a result (the
embedding is a total function, so no exception is possible) whose
overall_score lies in [0, 100]; the degraded defaults documented in the spec
hold: the cadence sub-score is 0.4 and the posts_per_week metric is 0. -/
theorem c3_empty_posts_degraded (username : String) (ui : Option UserInfo) (vp : Option VoiceProfile) :
    (0 ≤ (scoreProfileHealth username [] ui vp).overallScore ∧
      (scoreProfileHealth username [] ui vp).overallScore ≤ 100) ∧
    (scoreProfileHealth username [] ui vp).scores.cadence = 2/5 ∧
    (scoreProfileHealth username [] ui vp).metrics.postsPerWeek = 0 := by
  refine ⟨?_, rfl, rfl⟩
  show 0 ≤ weightedOverall _ ∧ weightedOverall _ ≤ 100
  apply weightedOverall_mem
  · exact scoreEngagementRate_mem _
  · rw [show ((scoreCadence []).1) = 2/5 from rfl]; norm_num
  · exact scoreTopicFocus_fst_mem _ _
  · exact scoreLength_mem _
  · exact scoreReplyBalance_mem _
  · rw [show averageVirality [] = 2/5 from rfl]; norm_num
  · exact scoreHashtags_mem _
  · exact scoreLinks_mem _
  · exact scoreProfileCompleteness_mem _
